import Mathlib

/-!
Shallow embedding of three leaf artifacts of the repository:

* `UnimplementedViewProps` (from
  `ABI46_0_0UnimplementedViewProps.cpp`): the accessor pair
  `setComponentName` / `getComponentName` over a props state.
* `ABI46_0_0EXDeviceType` (from `ABI46_0_0EXDevice.h`): the device-type
  `NS_ENUM` with members Unknown, Phone, Tablet, Desktop, TV.
* `EXJavaScriptFunction` (from `EXJavaScriptFunction.h`): the wrapper
  pairing a shared handle to a callable JS value with a runtime reference.
-/

namespace ABI46_0_0React

/-- The `ComponentName` type of the renderer (a string-like component name,
`char const *` in the C++ source), shallowly embedded as `String`. -/
abbrev ComponentName := String

/-- The props state of an unimplemented-view placeholder.

Modelled from the spec: the header declaring the class's fields is not under
`src/` (only the `.cpp` with the two member functions is); the spec states that
`UnimplementedViewProps` holds a single attribute `componentName_`. Any other
part of the props state (e.g. inherited view-props fields) is abstracted as a
field `rest` of an arbitrary type `ρ`, so that frame conditions can be
stated. -/
structure UnimplementedViewProps (ρ : Type) where
  componentName_ : ComponentName
  rest : ρ
  deriving Repr

/-- `UnimplementedViewProps::setComponentName` from
`ABI46_0_0UnimplementedViewProps.cpp`: the body is the single assignment
`componentName_ = componentName;`, so only `componentName_` is written. -/
def UnimplementedViewProps.setComponentName {ρ : Type}
    (s : UnimplementedViewProps ρ) (componentName : ComponentName) :
    UnimplementedViewProps ρ :=
  { s with componentName_ := componentName }

/-- `UnimplementedViewProps::getComponentName` from
`ABI46_0_0UnimplementedViewProps.cpp`: returns `componentName_`. -/
def UnimplementedViewProps.getComponentName {ρ : Type}
    (s : UnimplementedViewProps ρ) : ComponentName :=
  s.componentName_

/-- The default-initialized value of `componentName_`.

Modelled from the spec: the class declaration with the member's initializer is
not under `src/`; a default-initialized string-like member is the empty
string. -/
def defaultComponentName : ComponentName := ""

/-- Construction of a fresh `UnimplementedViewProps` on which
`setComponentName` was never called: `componentName_` holds its
default-initialized value.

Modelled from the spec: the constructor is not under `src/`; the spec says the
object is constructed by the UI framework and only later mutated via the
setter. -/
def UnimplementedViewProps.mkDefault {ρ : Type} (r : ρ) :
    UnimplementedViewProps ρ :=
  ⟨defaultComponentName, r⟩

end ABI46_0_0React

/-- The `ABI46_0_0EXDeviceType` `NS_ENUM` declared in `ABI46_0_0EXDevice.h`,
with members Unknown, Phone, Tablet, Desktop, TV (constructor names drop the
`ABI46_0_0EXDeviceType` prefix of the C identifiers). -/
inductive ABI46_0_0EXDeviceType where
  | Unknown
  | Phone
  | Tablet
  | Desktop
  | TV
  deriving DecidableEq, Repr

/-- The underlying `NSInteger` value of each `ABI46_0_0EXDeviceType` member:
the header sets `ABI46_0_0EXDeviceTypeUnknown = 0` and lets the remaining
members take the successive values the C enumeration rules assign. -/
def ABI46_0_0EXDeviceType.rawValue : ABI46_0_0EXDeviceType → Int
  | .Unknown => 0
  | .Phone => 1
  | .Tablet => 2
  | .Desktop => 3
  | .TV => 4

/-- The parallel `DeviceType` enumeration of the scripting layer.

Modelled from the spec: the scripting-layer (JavaScript) source holding this
enumeration is not under `src/`; the spec states it is the same closed
enumeration {Unknown, Phone, Tablet, Desktop, TV}, kept bit-identical to the
native one by convention (the header carries the comment "Keep this enum in
sync with JavaScript"). -/
inductive ScriptingDeviceType where
  | UNKNOWN
  | PHONE
  | TABLET
  | DESKTOP
  | TV
  deriving DecidableEq, Repr

/-- The numeric value of each scripting-layer `DeviceType` member.

Modelled from the spec: the scripting-layer source is not under `src/`; per the
spec the values are bit-identical to the native enumeration's. -/
def ScriptingDeviceType.jsValue : ScriptingDeviceType → Int
  | .UNKNOWN => 0
  | .PHONE => 1
  | .TABLET => 2
  | .DESKTOP => 3
  | .TV => 4

/-- The name-for-name correspondence between the native enumeration and the
scripting-layer one. -/
def ABI46_0_0EXDeviceType.toScriptingLayer :
    ABI46_0_0EXDeviceType → ScriptingDeviceType
  | .Unknown => .UNKNOWN
  | .Phone => .PHONE
  | .Tablet => .TABLET
  | .Desktop => .DESKTOP
  | .TV => .TV

/-- The `EXJavaScriptFunction` wrapper declared in `EXJavaScriptFunction.h`:
it pairs a shared handle to a callable JS value (`std::shared_ptr
<jsi::Function>`, abstracted as a type `F`) with a runtime reference
(`EXJavaScriptRuntime *`, abstracted as a type `R`; the header marks the
parameter `nonnull`, so the field holds a runtime itself, not an optional). -/
structure EXJavaScriptFunction (F R : Type) where
  function : F
  runtime : R
  deriving Repr

/-- The designated initializer `initWith:runtime:` of `EXJavaScriptFunction`.

Modelled from the spec: the implementation (`.mm`) is not under `src/`; the
header declares `- (nonnull instancetype)initWith:runtime:`, i.e. construction
from a shared callable handle and a non-null runtime reference yields a
non-null wrapper instance, rendered here as `some` of the wrapper. -/
def EXJavaScriptFunction.initWith {F R : Type} (function : F) (runtime : R) :
    Option (EXJavaScriptFunction F R) :=
  some ⟨function, runtime⟩

open ABI46_0_0React

/-- Claim C1: for every `UnimplementedViewProps` state and every component
name `x`, calling `setComponentName x` and then `getComponentName` returns
`x`. -/
theorem setComponentName_then_getComponentName {ρ : Type}
    (s : UnimplementedViewProps ρ) (x : ComponentName) :
    (s.setComponentName x).getComponentName = x :=
  rfl

/-- Claim C2: `setComponentName x` writes `componentName_` to `x` and leaves
every other part of the props state (the `rest` field abstracting it)
unchanged. -/
theorem setComponentName_frame {ρ : Type}
    (s : UnimplementedViewProps ρ) (x : ComponentName) :
    (s.setComponentName x).componentName_ = x ∧
      (s.setComponentName x).rest = s.rest :=
  ⟨rfl, rfl⟩

/-- Claim C3: `setComponentName` and `getComponentName` are total with no
failure branch: on every state and input they produce a resulting state and a
returned name. -/
theorem accessors_total {ρ : Type}
    (s : UnimplementedViewProps ρ) (x : ComponentName) :
    ∃ t : UnimplementedViewProps ρ, s.setComponentName x = t ∧
      ∃ n : ComponentName, t.getComponentName = n :=
  ⟨s.setComponentName x, rfl, (s.setComponentName x).getComponentName, rfl⟩

/-- Claim C4: `ABI46_0_0EXDeviceType` is a closed enumeration whose members
are exactly the five pairwise-distinct values Unknown, Phone, Tablet, Desktop
and TV. -/
theorem deviceType_closed :
    (∀ d : ABI46_0_0EXDeviceType,
        d = .Unknown ∨ d = .Phone ∨ d = .Tablet ∨ d = .Desktop ∨ d = .TV) ∧
      ([ABI46_0_0EXDeviceType.Unknown, .Phone, .Tablet, .Desktop,
          .TV] : List ABI46_0_0EXDeviceType).Nodup := by
  constructor
  · intro d
    cases d <;> simp
  · decide

/-- Claim C5: `getComponentName` may be called on a props object on which
`setComponentName` was never called; the call does not fail and returns the
default-initialized `componentName_` value. -/
theorem getComponentName_default {ρ : Type} (r : ρ) :
    (UnimplementedViewProps.mkDefault r).getComponentName =
      defaultComponentName :=
  rfl

/-- Claim C6: every member of the native `ABI46_0_0EXDeviceType` enumeration
carries the same underlying value as its scripting-layer counterpart. -/
theorem deviceType_matches_scriptingLayer :
    ∀ d : ABI46_0_0EXDeviceType,
      d.rawValue = d.toScriptingLayer.jsValue := by
  intro d
  cases d <;> rfl

/-- Claim C7: the `EXJavaScriptFunction` wrapper is constructed from exactly
two inputs, a shared callable handle and a (non-null, hence non-optional)
runtime reference, and for every such pair `initWith` returns a non-null
wrapper holding exactly those inputs. -/
theorem initWith_returns_wrapper {F R : Type} (function : F) (runtime : R) :
    ∃ w : EXJavaScriptFunction F R,
      EXJavaScriptFunction.initWith function runtime = some w ∧
        w.function = function ∧ w.runtime = runtime :=
  ⟨⟨function, runtime⟩, rfl, rfl, rfl⟩

/-- Claim C9: the underlying integer values of `ABI46_0_0EXDeviceType` are
consecutive starting at zero: Unknown = 0, Phone = 1, Tablet = 2, Desktop = 3,
TV = 4. -/
theorem deviceType_rawValues :
    ABI46_0_0EXDeviceType.Unknown.rawValue = 0 ∧
      ABI46_0_0EXDeviceType.Phone.rawValue = 1 ∧
      ABI46_0_0EXDeviceType.Tablet.rawValue = 2 ∧
      ABI46_0_0EXDeviceType.Desktop.rawValue = 3 ∧
      ABI46_0_0EXDeviceType.TV.rawValue = 4 := by
  decide

/-- Claim C10: `setComponentName` unconditionally overwrites the stored name,
so repeated calls obey last-write-wins: setting `x` and then `y` yields the
same state as setting `y` alone. -/
theorem setComponentName_last_write_wins {ρ : Type}
    (s : UnimplementedViewProps ρ) (x y : ComponentName) :
    (s.setComponentName x).setComponentName y = s.setComponentName y :=
  rfl
